import Mathlib

/-!
Verification of the AWARE disease-risk-reporting dashboard.

The definitions below are shallow embeddings of the JavaScript source:

* `computeRiskLevel`, `computeSummary`, `handleDeleteReport`,
  `handlePrevReport`, `handleNextReport`, `handleLogin`
  from `src/components/OfficialDashboard.jsx`;
* `handleReportSubmit`, `handleLoginSubmit` from
  `src/components/AshaReport.jsx`;
* `getSensorStatus`, `getGraphStatus`, `getSensorData` from
  `src/services/sensorService.js`;
* `parseGeminiResponse`, `generateDiseaseAnalysis`,
  `getFallbackDiseases`, `getFallbackRecommendations` from the Gemini
  narrative-generation service.

JavaScript strings are Lean `String`s; a field that may be absent or
non-numeric (`report.mainSymptoms || []`, `Number(report.peopleCount || 0)`)
is an `Option`, with `none` standing for the missing/invalid case that the
source coerces to its zero value.  Asynchronous store and HTTP calls are
embedded by passing their outcome as an explicit argument, so each handler
becomes a pure function of its inputs and the outcome of the one I/O call
it makes.
-/

namespace AWARE

/-- A field report as the official dashboard receives it from the store.
`mainSymptoms` mirrors `report.mainSymptoms || []` (`none` = field absent),
`peopleCount` mirrors `Number(report.peopleCount || 0)` (`none` = absent or
non-numeric, which the source treats as 0), `submittedAt` is the creation
timestamp in epoch minutes (`none` = no timestamp), and `villageName`
uses `""` for the falsy/absent case of `report.villageName`. -/
structure Report where
  id : String
  villageName : String
  mainSymptoms : Option (List String)
  waterDirty : String
  flooding : String
  peopleCount : Option Nat
  submittedAt : Option Nat
  deriving Repr, DecidableEq

/-- JavaScript's `s.toLowerCase()` restricted to the ASCII symptom labels
the dashboard uses: lower-case every character of the string. -/
def toLowerCase (s : String) : String :=
  ⟨s.data.map Char.toLower⟩

/-- The people-count contribution inside `computeRiskLevel`:
`if Number(report.peopleCount || 0) >= 20 score += 2 else if >= 10 score += 1`. -/
def peopleContribution (peopleCount : Option Nat) : Nat :=
  if peopleCount.getD 0 ≥ 20 then 2
  else if peopleCount.getD 0 ≥ 10 then 1
  else 0

/-- The point total accumulated by `computeRiskLevel` before thresholding
(the successive `score +=` statements of the source). -/
def riskScore (report : Report) : Nat :=
  let symptoms := (report.mainSymptoms.getD []).map toLowerCase
  (if symptoms.any (fun s => s == "diarrhoea" || s == "vomiting") then 2 else 0)
  + (if symptoms.contains "fever" then 1 else 0)
  + (if report.waterDirty == "yes" then 2 else 0)
  + (if report.flooding == "yes" then 1 else 0)
  + peopleContribution report.peopleCount

/-- The threshold step at the end of `computeRiskLevel`:
`if (score >= 5) return High; if (score >= 3) return Medium; return Low`. -/
def riskLabel (score : Nat) : String :=
  if score ≥ 5 then "High"
  else if score ≥ 3 then "Medium"
  else "Low"

/-- `computeRiskLevel` from `OfficialDashboard.jsx`. -/
def computeRiskLevel (report : Report) : String :=
  riskLabel (riskScore report)

/-- The point scale as §4.1 of the specification words it ("+2 if the
symptom set intersects the pair diarrhoea/vomiting case-insensitively, +1
if it contains fever, ..."), written independently of the source for the
refinement comparison. -/
def specScore (report : Report) : Nat :=
  (if ((report.mainSymptoms.getD []).map toLowerCase).contains "diarrhoea"
      || ((report.mainSymptoms.getD []).map toLowerCase).contains "vomiting"
   then 2 else 0)
  + (if ((report.mainSymptoms.getD []).map toLowerCase).contains "fever" then 1 else 0)
  + (if report.waterDirty == "yes" then 2 else 0)
  + (if report.flooding == "yes" then 1 else 0)
  + (if report.peopleCount.getD 0 ≥ 20 then 2
     else if report.peopleCount.getD 0 ≥ 10 then 1 else 0)

/-- The risk-scoring rule as §4.1 of the specification words it. -/
def specRiskLevel (report : Report) : String :=
  if specScore report ≥ 5 then "High"
  else if specScore report ≥ 3 then "Medium"
  else "Low"

/-- The concrete report of the spec's scenario: symptoms Diarrhoea and
Fever, dirty water, no flooding, 15 people affected. -/
def scenarioReport : Report :=
  { id := "r1", villageName := "Rampur",
    mainSymptoms := some ["Diarrhoea", "Fever"],
    waterDirty := "yes", flooding := "no",
    peopleCount := some 15, submittedAt := none }

/-! ### ASHA form submission (`AshaReport.jsx`) -/

/-- The report object built at the top of `handleReportSubmit`
(`normalizedReport` in the source): a locally generated id, the form
data, the creation timestamp and the submitter. -/
structure NormalizedReport where
  id : String
  formSymptoms : List String
  createdAt : String
  submittedBy : String
  deriving Repr, DecidableEq

/-- `mainSymptoms: formData.mainSymptoms.length ? formData.mainSymptoms : ['Not specified']`. -/
def normalizedSymptoms (formSymptoms : List String) : List String :=
  if formSymptoms.length ≠ 0 then formSymptoms else ["Not specified"]

/-- An entry of the local report-history cache: the normalized report
together with its synchronization status string. -/
structure HistoryEntry where
  report : NormalizedReport
  status : String
  deriving Repr, DecidableEq

/-- Outcome of the one store write `saveAshaWorkerReport` may perform:
either the store accepted the document and assigned it an id
(`docRef.id`), or the write was rejected. -/
inductive StoreResult where
  | ok (docId : String)
  | err
  deriving Repr, DecidableEq

/-- The cache update common to all three submission paths:
`setReportHistory(prev => [entry, ...prev].slice(0, 30))`. -/
def pushHistory (entry : HistoryEntry) (prev : List HistoryEntry) : List HistoryEntry :=
  (entry :: prev).take 30

/-- `handleReportSubmit` from `AshaReport.jsx`, as a function of the
offline check (`navigator.onLine`), the outcome the store would give if
consulted, the normalized report and the current history.  Returns the new
history together with a flag recording whether the store write was
attempted.  Offline: queue with status Pending sync, never touching the
store.  Online and the write succeeds: record with the store-assigned id
and status Synced.  Online and the write fails: record with status
Failed. -/
def handleReportSubmit (isOnline : Bool) (store : StoreResult)
    (normalizedReport : NormalizedReport) (prev : List HistoryEntry) :
    List HistoryEntry × Bool :=
  if !isOnline then
    (pushHistory ⟨normalizedReport, "Pending sync"⟩ prev, false)
  else
    match store with
    | .ok docId =>
        (pushHistory ⟨{ normalizedReport with id := docId }, "Synced"⟩ prev, true)
    | .err =>
        (pushHistory ⟨normalizedReport, "Failed"⟩ prev, true)

/-- One step of a submission session: apply `handleReportSubmit` to the
current cache, keeping only the cache. -/
def submitStep (hist : List HistoryEntry)
    (s : Bool × StoreResult × NormalizedReport) : List HistoryEntry :=
  (handleReportSubmit s.1 s.2.1 s.2.2 hist).1

/-- A fixed history entry used to instantiate concrete scenarios. -/
def sampleReport : NormalizedReport :=
  { id := "1700000000000", formSymptoms := ["Fever"],
    createdAt := "2026-01-01T00:00:00.000Z", submittedBy := "user" }

/-! ### Official dashboard state (`OfficialDashboard.jsx`) -/

/-- A field report annotated with its computed risk label, as produced by
`fetched.map(report => (..., risk: computeRiskLevel(report)))`. -/
structure AReport extends Report where
  risk : String
  deriving Repr, DecidableEq

/-- The annotation step performed after `fetchAshaReports`. -/
def annotate (report : Report) : AReport :=
  { report with risk := computeRiskLevel report }

/-- An emergency report row; the dashboard summary only uses how many
there are. -/
structure EReport where
  id : String
  deriving Repr, DecidableEq

/-- Minutes in a calendar day.  Timestamps below are absolute epoch
minutes; a timezone is an offset `off` of minutes to add to an absolute
instant to read the local clock. -/
def minutesPerDay : Nat := 1440

/-- The local calendar day an absolute instant `t` falls in, for a zone
`off` minutes ahead of the epoch clock. -/
def localDay (off t : Nat) : Nat := (t + off) / minutesPerDay

/-- `new Date(now.getFullYear(), now.getMonth(), now.getDate())`: local
midnight of the current day.  Stored shifted by `off` (i.e. as the value
`todayStart + off`), so `todayStart <= t` reads `todayStartShifted <= t + off`. -/
def todayStartShifted (off now : Nat) : Nat :=
  ((now + off) / minutesPerDay) * minutesPerDay

/-- The filter body of the `newReports` count:
`if (!report.submittedAt) return false; return new Date(report.submittedAt) >= todayStart`. -/
def countsAsToday (off now : Nat) (submittedAt : Option Nat) : Bool :=
  match submittedAt with
  | none => false
  | some t => decide (todayStartShifted off now ≤ t + off)

/-- The same test as §4.3/§8 of the specification word it: a report counts
as today when its creation instant falls on the caller's current local
calendar day or later. -/
def specCountsAsToday (off now : Nat) (submittedAt : Option Nat) : Bool :=
  match submittedAt with
  | none => false
  | some t => decide (localDay off now ≤ localDay off t)

/-- The `newReports` component of `computeSummary`. -/
def newReportsToday (off now : Nat) (reportsData : List AReport) : Nat :=
  (reportsData.filter (fun r => countsAsToday off now r.submittedAt)).length

/-- One step of the `areaCounts` reduce:
`acc[key] = (acc[key] || 0) + Number(report.peopleCount || 0)`, on an
association list that keeps first-encounter key order like a JS object. -/
def bumpArea (acc : List (String × Nat)) (key : String) (n : Nat) :
    List (String × Nat) :=
  if acc.any (fun p => p.1 == key) then
    acc.map (fun p => if p.1 == key then (p.1, p.2 + n) else p)
  else acc ++ [(key, n)]

/-- The `areaCounts` reduce of `computeSummary`, keyed by
`report.villageName || 'Unknown'`. -/
def areaCounts (reportsData : List AReport) : List (String × Nat) :=
  reportsData.foldl
    (fun acc r =>
      bumpArea acc (if r.villageName == "" then "Unknown" else r.villageName)
        (r.peopleCount.getD 0))
    []

/-- `Object.entries(areaCounts).sort((a, b) => b[1] - a[1])[0]?.[0] || '-'`:
with a stable descending sort this is the first-encountered key of maximal
count, or the dash placeholder when there are no entries. -/
def topAreaLabel (entries : List (String × Nat)) : String :=
  match entries.foldl
      (fun best p =>
        match best with
        | none => some p
        | some b => if p.2 > b.2 then some p else some b)
      none with
  | none => "-"
  | some p => p.1

/-- The dashboard summary record. -/
structure Summary where
  newReports : Nat
  highRisk : Nat
  emergencyCount : Nat
  topArea : String
  deriving Repr, DecidableEq

/-- `computeSummary` from `OfficialDashboard.jsx`, with the current
instant `now` and timezone offset `off` made explicit arguments. -/
def computeSummary (off now : Nat) (reportsData : List AReport)
    (emergencyData : List EReport) : Summary :=
  { newReports := newReportsToday off now reportsData,
    highRisk := (reportsData.filter (fun r => r.risk == "High")).length,
    emergencyCount := emergencyData.length,
    topArea := topAreaLabel (areaCounts reportsData) }

/-- The dashboard component state touched by delete and archive
navigation. -/
structure DashState where
  reports : List AReport
  emergencyReports : List EReport
  summary : Summary
  reportIndex : Nat
  error : String
  deriving Repr, DecidableEq

/-- The message shown when a store delete is rejected. -/
def deleteErrorMessage : String :=
  "Failed to delete report. Please check your Firestore permissions."

/-- `handleDeleteReport` from `OfficialDashboard.jsx`: the outcome of the
awaited `deleteAshaReport` call is the explicit `deleteOk` argument.  On
success the report list is filtered, the summary recomputed from the
updated list, and the archive index clamped; on failure (the catch block)
only the error message changes. -/
def handleDeleteReport (off now : Nat) (deleteOk : Bool) (rid : String)
    (st : DashState) : DashState :=
  if deleteOk then
    let updated := st.reports.filter (fun item => item.id != rid)
    { st with
      reports := updated,
      summary := computeSummary off now updated st.emergencyReports,
      reportIndex := if updated.length = 0 then 0
                     else min st.reportIndex (updated.length - 1),
      error := "" }
  else
    { st with error := deleteErrorMessage }

/-- `handlePrevReport`:
`prev => (reports.length ? (prev - 1 + reports.length) % reports.length : 0)`. -/
def handlePrevReport (st : DashState) : DashState :=
  { st with reportIndex :=
      if st.reports.length = 0 then 0
      else (st.reportIndex + st.reports.length - 1) % st.reports.length }

/-- `handleNextReport`:
`prev => (reports.length ? (prev + 1) % reports.length : 0)`. -/
def handleNextReport (st : DashState) : DashState :=
  { st with reportIndex :=
      if st.reports.length = 0 then 0
      else (st.reportIndex + 1) % st.reports.length }

/-- The `useEffect(() => setReportIndex(0), [reports.length])` hook: after
an update, the archive index is reset to 0 whenever the report count
differs from the count before the update. -/
def resetIndexOnCountChange (oldCount : Nat) (st : DashState) : DashState :=
  if st.reports.length ≠ oldCount then { st with reportIndex := 0 } else st

/-- User actions that move the archive index or the report list. -/
inductive DashEvent where
  | deleteReport (ok : Bool) (rid : String)
  | prevReport
  | nextReport
  deriving Repr, DecidableEq

/-- One dashboard step: run the handler for the event, then the
reset-on-count-change effect. -/
def dashStep (off now : Nat) (st : DashState) (ev : DashEvent) : DashState :=
  match ev with
  | .deleteReport ok rid =>
      resetIndexOnCountChange st.reports.length (handleDeleteReport off now ok rid st)
  | .prevReport => handlePrevReport st
  | .nextReport => handleNextReport st

/-- The archive-index invariant: 0 on an empty list, otherwise strictly
below the report count. -/
def indexInv (st : DashState) : Prop :=
  (st.reports.length = 0 → st.reportIndex = 0) ∧
  (st.reports.length ≠ 0 → st.reportIndex < st.reports.length)

/-- A fixed annotated report used to instantiate concrete dashboard
scenarios. -/
def sampleAReport : AReport :=
  { id := "a1", villageName := "Rampur", mainSymptoms := some ["Fever"],
    waterDirty := "no", flooding := "no", peopleCount := some 4,
    submittedAt := some 143670, risk := "Low" }

/-- A fixed dashboard state with one report, used as a concrete input. -/
def sampleDashState : DashState :=
  { reports := [sampleAReport], emergencyReports := [],
    summary := { newReports := 0, highRisk := 0, emergencyCount := 0, topArea := "-" },
    reportIndex := 0, error := "" }

/-! ### Gemini narrative generation -/

/-- The JSON object recovered from a Gemini reply after markdown-fence
cleanup and `JSON.parse`.  A field is `none` when `Array.isArray` fails on
it (absent or not an array). -/
structure GeminiJson where
  diseases : Option (List String)
  recommendations : Option (List String)
  deriving Repr, DecidableEq

/-- The value `generateDiseaseAnalysis` resolves with.  `errorMsg` is the
extra `error` field attached on the hardcoded-fallback path. -/
structure GeminiResult where
  diseases : List String
  recommendations : List String
  errorMsg : Option String
  deriving Repr, DecidableEq

/-- `getFallbackDiseases`: the source ignores the risk level and returns
an empty array. -/
def getFallbackDiseases (_riskLevel : String) : List String := []

/-- `getFallbackRecommendations`: the fixed safe-default list, capped at
4 by `slice(0, 4)`; the risk level is ignored. -/
def getFallbackRecommendations (_riskLevel : String) : List String :=
  (["Boil water before drinking",
    "Monitor and report water quality regularly",
    "Use water filters or purification systems when available",
    "Contact local health authorities if water quality concerns persist"]).take 4

/-- `parseGeminiResponse`: `none` input stands for a response text whose
cleanup and `JSON.parse` failed, in which case the function throws
(`Except.error`); otherwise the array fields are capped at 3 and 4
entries, empty results falling back to the safe defaults. -/
def parseGeminiResponse (parsed : Option GeminiJson) (riskLevel : String) :
    Except String GeminiResult :=
  match parsed with
  | none => .error "Failed to parse Gemini response"
  | some p =>
      let diseases := (p.diseases.getD []).take 3
      let recommendations := (p.recommendations.getD []).take 4
      .ok { diseases := if diseases.length > 0 then diseases
                        else getFallbackDiseases riskLevel,
            recommendations := if recommendations.length > 0 then recommendations
                               else getFallbackRecommendations riskLevel,
            errorMsg := none }

/-- Outcome of one `ai.models.generateContent` call: either a reply text
arrived (carrying what its cleanup and parse would yield), or the API
call itself rejected / returned no text. -/
inductive ApiOutcome where
  | ok (parsed : Option GeminiJson)
  | apiError (msg : String)
  deriving Repr, DecidableEq

/-- One model call followed by `parseGeminiResponse`, as performed for
the primary model in the inner try and for the fallback model in the
inner catch. -/
def runModelCall (outcome : ApiOutcome) (riskLevel : String) :
    Except String GeminiResult :=
  match outcome with
  | .apiError msg => .error msg
  | .ok parsed => parseGeminiResponse parsed riskLevel

/-- The hardcoded payload the outer catch resolves with. -/
def fallbackData (riskLevel errMsg : String) : GeminiResult :=
  { diseases := getFallbackDiseases riskLevel,
    recommendations := getFallbackRecommendations riskLevel,
    errorMsg := some errMsg }

/-- `generateDiseaseAnalysis` (API client assumed configured): try the
primary model; on any error the inner catch tries the fallback model; on
any error there the outer catch resolves with the hardcoded fallback
payload.  (The outer catch's extra `tryFallbackModel` branch is guarded
by `!useFallback`, which is always false by the time the outer catch
runs, so it contributes nothing.) -/
def generateDiseaseAnalysis (riskLevel : String) (primary fallback : ApiOutcome) :
    GeminiResult :=
  match runModelCall primary riskLevel with
  | .ok r => r
  | .error _ =>
      match runModelCall fallback riskLevel with
      | .ok r => r
      | .error msg => fallbackData riskLevel msg

/-! ### Sensor service (`sensorService.js`) and login handlers -/

/-- Body of the `sensors/status` and `graph/status` endpoints. -/
structure StatusBody where
  running : Bool
  deriving Repr, DecidableEq

/-- Body of the `sensor-data` endpoint; readings are kept opaque. -/
structure SensorDataBody where
  data : List String
  count : Nat
  deriving Repr, DecidableEq

/-- Outcome of a `fetch` to the backend: a 2xx response with a parsed
body, a non-2xx response (the code throws, then catches), or a rejected
fetch / JSON parse (caught the same way). -/
inductive FetchResult (α : Type) where
  | ok (body : α)
  | httpError
  | networkError
  deriving Repr, DecidableEq

/-- `getSensorStatus`: every failure path is caught and yields
`{running: false}`. -/
def getSensorStatus (response : FetchResult StatusBody) : StatusBody :=
  match response with
  | .ok body => body
  | .httpError => { running := false }
  | .networkError => { running := false }

/-- `getGraphStatus`: identical failure handling to `getSensorStatus`. -/
def getGraphStatus (response : FetchResult StatusBody) : StatusBody :=
  match response with
  | .ok body => body
  | .httpError => { running := false }
  | .networkError => { running := false }

/-- `getSensorData`: every failure path is caught and yields
`{data: [], count: 0}`. -/
def getSensorData (response : FetchResult SensorDataBody) : SensorDataBody :=
  match response with
  | .ok body => body
  | .httpError => { data := [], count := 0 }
  | .networkError => { data := [], count := 0 }

/-- JavaScript's `s.trim()`: strip leading and trailing whitespace. -/
def jsTrim (s : String) : String :=
  ⟨((s.data.dropWhile Char.isWhitespace).reverse.dropWhile Char.isWhitespace).reverse⟩

/-- `OFFICIAL_CREDENTIALS` of `OfficialDashboard.jsx` and `credentials`
of `AshaReport.jsx`: the one fixed username/password pair. -/
def OFFICIAL_CREDENTIALS : String × String := ("user", "12345")

/-- `handleLogin` from `OfficialDashboard.jsx`, returning the
`isAuthenticated` flag and the error message it sets. -/
def handleLogin (username password : String) : Bool × String :=
  if jsTrim username == OFFICIAL_CREDENTIALS.1
      && password == OFFICIAL_CREDENTIALS.2 then
    (true, "")
  else
    (false, "Invalid credentials for officials.")

/-- `handleLoginSubmit` from `AshaReport.jsx`, returning the
`isAuthenticated` flag and the `formStatus` message it sets. -/
def handleLoginSubmit (username password : String) : Bool × String :=
  if jsTrim username == "user" && password == "12345" then
    (true, "Access granted. Complete the report below.")
  else
    (false, "Invalid credentials. Please try again.")

end AWARE

/-! ## Supporting lemmas -/

namespace AWARE

theorem list_any_mem_iff (l : List String) (a b : String) :
    (l.any (fun s => s == a || s == b)) = (l.contains a || l.contains b) := by
  rw [Bool.eq_iff_iff]
  simp only [List.any_eq_true, Bool.or_eq_true, beq_iff_eq, List.contains, List.elem_iff]
  constructor
  · rintro ⟨x, hx, rfl | rfl⟩
    · exact Or.inl hx
    · exact Or.inr hx
  · rintro (h | h)
    · exact ⟨a, h, Or.inl rfl⟩
    · exact ⟨b, h, Or.inr rfl⟩

theorem riskScore_eq_spec (report : Report) :
    riskScore report = specScore report := by
  simp only [riskScore, specScore, peopleContribution]
  rw [list_any_mem_iff]

theorem computeRiskLevel_eq_spec (report : Report) :
    computeRiskLevel report = specRiskLevel report := by
  simp only [computeRiskLevel, specRiskLevel, riskLabel, riskScore_eq_spec]

theorem pushHistory_length_le (entry : HistoryEntry) (prev : List HistoryEntry) :
    (pushHistory entry prev).length ≤ 30 := by
  simp only [pushHistory]
  exact List.length_take_le 30 _

theorem handleReportSubmit_length_le (isOnline : Bool) (store : StoreResult)
    (r : NormalizedReport) (prev : List HistoryEntry) :
    (handleReportSubmit isOnline store r prev).1.length ≤ 30 := by
  cases isOnline <;> cases store <;>
    simp only [handleReportSubmit, Bool.not_false, Bool.not_true, if_true, if_false,
      cond_true, cond_false, ite_true, ite_false] <;>
    exact pushHistory_length_le _ _

theorem submitSession_length_le (submissions : List (Bool × StoreResult × NormalizedReport))
    (init : List HistoryEntry) (hinit : init.length ≤ 30) :
    (submissions.foldl submitStep init).length ≤ 30 := by
  induction submissions generalizing init with
  | nil => simpa using hinit
  | cons s rest ih =>
    simp only [List.foldl_cons]
    exact ih _ (handleReportSubmit_length_le _ _ _ _)

theorem handleReportSubmit_cons (isOnline : Bool) (store : StoreResult)
    (r : NormalizedReport) (prev : List HistoryEntry) :
    ∃ e : HistoryEntry,
      (handleReportSubmit isOnline store r prev).1 = e :: prev.take 29 := by
  cases isOnline <;> cases store <;>
    exact ⟨_, rfl⟩

theorem indexInv_handlePrevReport (st : DashState) :
    indexInv (handlePrevReport st) := by
  refine ⟨fun hl => ?_, fun hl => ?_⟩ <;>
    simp only [handlePrevReport] at hl ⊢
  · simp [hl]
  · rw [if_neg hl]
    exact Nat.mod_lt _ (Nat.pos_of_ne_zero hl)

theorem indexInv_handleNextReport (st : DashState) :
    indexInv (handleNextReport st) := by
  refine ⟨fun hl => ?_, fun hl => ?_⟩ <;>
    simp only [handleNextReport] at hl ⊢
  · simp [hl]
  · rw [if_neg hl]
    exact Nat.mod_lt _ (Nat.pos_of_ne_zero hl)

theorem indexInv_handleDeleteReport (off now : Nat) (ok : Bool) (rid : String)
    (st : DashState) (h : indexInv st) :
    indexInv (handleDeleteReport off now ok rid st) := by
  cases ok with
  | false => exact h
  | true =>
    refine ⟨fun hl => ?_, fun hl => ?_⟩ <;>
      simp only [handleDeleteReport, if_true, ite_true] at hl ⊢
    · simp [hl]
    · rw [if_neg hl]
      exact Nat.lt_of_le_of_lt (Nat.min_le_right _ _)
        (Nat.sub_lt (Nat.pos_of_ne_zero hl) Nat.one_pos)

theorem indexInv_resetIndexOnCountChange (n : Nat) (st : DashState)
    (h : indexInv st) : indexInv (resetIndexOnCountChange n st) := by
  unfold resetIndexOnCountChange
  split
  · exact ⟨fun _ => rfl, fun hl => Nat.pos_of_ne_zero hl⟩
  · exact h

theorem indexInv_dashStep (off now : Nat) (st : DashState) (ev : DashEvent)
    (h : indexInv st) : indexInv (dashStep off now st ev) := by
  cases ev with
  | deleteReport ok rid =>
    exact indexInv_resetIndexOnCountChange _ _
      (indexInv_handleDeleteReport off now ok rid st h)
  | prevReport => exact indexInv_handlePrevReport st
  | nextReport => exact indexInv_handleNextReport st

theorem indexInv_dashRun (off now : Nat) (evs : List DashEvent) (st : DashState)
    (h : indexInv st) : indexInv (evs.foldl (dashStep off now) st) := by
  induction evs generalizing st with
  | nil => exact h
  | cons ev rest ih => exact ih _ (indexInv_dashStep off now st ev h)

theorem countsAsToday_eq_spec (off now : Nat) (s : Option Nat) :
    countsAsToday off now s = specCountsAsToday off now s := by
  cases s with
  | none => rfl
  | some t =>
    simp only [countsAsToday, specCountsAsToday, localDay, todayStartShifted]
    rw [decide_eq_decide]
    exact (Nat.le_div_iff_mul_le (by decide)).symm

theorem newReportsToday_eq_spec (off now : Nat) (reportsData : List AReport) :
    newReportsToday off now reportsData =
      (reportsData.filter (fun r => specCountsAsToday off now r.submittedAt)).length := by
  simp only [newReportsToday, countsAsToday_eq_spec]

theorem parseGeminiResponse_limits (parsed : Option GeminiJson)
    (riskLevel : String) (r : GeminiResult)
    (h : parseGeminiResponse parsed riskLevel = .ok r) :
    r.diseases.length ≤ 3 ∧ r.recommendations.length ≤ 4 := by
  cases parsed with
  | none => cases h
  | some p =>
    simp only [parseGeminiResponse] at h
    cases h
    refine ⟨?_, ?_⟩ <;> dsimp only <;> split
    · exact List.length_take_le 3 _
    · simp [getFallbackDiseases]
    · exact List.length_take_le 4 _
    · simp [getFallbackRecommendations]

theorem runModelCall_limits (outcome : ApiOutcome) (riskLevel : String)
    (r : GeminiResult) (h : runModelCall outcome riskLevel = .ok r) :
    r.diseases.length ≤ 3 ∧ r.recommendations.length ≤ 4 := by
  cases outcome with
  | apiError msg => cases h
  | ok parsed => exact parseGeminiResponse_limits parsed riskLevel r h

theorem fallbackData_limits (riskLevel errMsg : String) :
    (fallbackData riskLevel errMsg).diseases.length ≤ 3 ∧
    (fallbackData riskLevel errMsg).recommendations.length ≤ 4 := by
  constructor
  · simp [fallbackData, getFallbackDiseases]
  · simp [fallbackData, getFallbackRecommendations]

theorem generateDiseaseAnalysis_limits (riskLevel : String)
    (primary fallback : ApiOutcome) :
    (generateDiseaseAnalysis riskLevel primary fallback).diseases.length ≤ 3 ∧
    (generateDiseaseAnalysis riskLevel primary fallback).recommendations.length ≤ 4 := by
  unfold generateDiseaseAnalysis
  cases hp : runModelCall primary riskLevel with
  | ok r => exact runModelCall_limits primary riskLevel r hp
  | error e1 =>
    cases hf : runModelCall fallback riskLevel with
    | ok r => exact runModelCall_limits fallback riskLevel r hf
    | error e2 => exact fallbackData_limits riskLevel e2

theorem handleLogin_iff (u p : String) :
    (handleLogin u p).1 = true ↔ (jsTrim u = "user" ∧ p = "12345") := by
  simp only [handleLogin, OFFICIAL_CREDENTIALS]
  split
  · next h =>
    simp only [Bool.and_eq_true, beq_iff_eq] at h
    simpa using h
  · next h =>
    simp only [Bool.and_eq_true, beq_iff_eq] at h
    simpa using h

theorem handleLoginSubmit_iff (u p : String) :
    (handleLoginSubmit u p).1 = true ↔ (jsTrim u = "user" ∧ p = "12345") := by
  simp only [handleLoginSubmit]
  split
  · next h =>
    simp only [Bool.and_eq_true, beq_iff_eq] at h
    simpa using h
  · next h =>
    simp only [Bool.and_eq_true, beq_iff_eq] at h
    simpa using h

theorem handleLogin_fail_msg (u p : String) (h : (handleLogin u p).1 = false) :
    (handleLogin u p).2 = "Invalid credentials for officials." := by
  revert h
  simp only [handleLogin, OFFICIAL_CREDENTIALS]
  split <;> intro h
  · cases h
  · rfl

theorem handleLoginSubmit_fail_msg (u p : String)
    (h : (handleLoginSubmit u p).1 = false) :
    (handleLoginSubmit u p).2 = "Invalid credentials. Please try again." := by
  revert h
  simp only [handleLoginSubmit]
  split <;> intro h
  · cases h
  · rfl

end AWARE

/-! ## Claims -/

/-- C1: `computeRiskLevel` returns one of Low, Medium, High; its point
total is exactly the fixed scale given in the spec (matched here by the
spec-worded `specRiskLevel`, proved equal to the source embedding for every
report); and the concrete scenario with symptoms Diarrhoea and Fever,
dirty water, no flooding and 15 people scores 6 and yields High. -/
theorem C1_computeRiskLevel_correct :
    (∀ report : AWARE.Report,
        AWARE.computeRiskLevel report = "Low" ∨
        AWARE.computeRiskLevel report = "Medium" ∨
        AWARE.computeRiskLevel report = "High") ∧
    (∀ report : AWARE.Report,
        AWARE.computeRiskLevel report = AWARE.specRiskLevel report) ∧
    AWARE.riskScore AWARE.scenarioReport = 6 ∧
    AWARE.computeRiskLevel AWARE.scenarioReport = "High" := by
  refine ⟨?_, AWARE.computeRiskLevel_eq_spec, by decide, by decide⟩
  intro report
  unfold AWARE.computeRiskLevel AWARE.riskLabel
  by_cases h5 : AWARE.riskScore report ≥ 5
  · right; right; simp [h5]
  · by_cases h3 : AWARE.riskScore report ≥ 3
    · right; left; simp [h5, h3]
    · left; simp [h5, h3]

/-- C2: the people-count contribution is +1 at exactly 10, +2 at exactly
20, and one tier lower at 9 and 19; the threshold step maps total 2 to
Low, 3 and 4 to Medium, and 5 to High. -/
theorem C2_boundaries :
    AWARE.peopleContribution (some 10) = 1 ∧
    AWARE.peopleContribution (some 20) = 2 ∧
    AWARE.peopleContribution (some 9) = 0 ∧
    AWARE.peopleContribution (some 19) = 1 ∧
    AWARE.riskLabel 2 = "Low" ∧
    AWARE.riskLabel 3 = "Medium" ∧
    AWARE.riskLabel 4 = "Medium" ∧
    AWARE.riskLabel 5 = "High" := by
  decide

/-- C3: the local report-history cache holds at most 30 entries after any
number of submissions in any mix of offline, failed and synced outcomes
(provided the starting cache held at most 30, e.g. was empty); every
submission prepends one new entry and keeps only the first 29 old ones;
and when the cache is full (exactly 30 entries) the evicted entry is
exactly the one at the tail, i.e. the oldest. -/
theorem C3_history_cache_fifo30 :
    (∀ (submissions : List (Bool × AWARE.StoreResult × AWARE.NormalizedReport))
       (init : List AWARE.HistoryEntry), init.length ≤ 30 →
        (submissions.foldl AWARE.submitStep init).length ≤ 30) ∧
    (∀ (s : Bool × AWARE.StoreResult × AWARE.NormalizedReport)
       (submissions : List (Bool × AWARE.StoreResult × AWARE.NormalizedReport))
       (init : List AWARE.HistoryEntry),
        ((s :: submissions).foldl AWARE.submitStep init).length ≤ 30) ∧
    (∀ (isOnline : Bool) (store : AWARE.StoreResult) (r : AWARE.NormalizedReport)
       (prev : List AWARE.HistoryEntry),
        ∃ e : AWARE.HistoryEntry,
          (AWARE.handleReportSubmit isOnline store r prev).1 = e :: prev.take 29) ∧
    (∀ (isOnline : Bool) (store : AWARE.StoreResult) (r : AWARE.NormalizedReport)
       (prev : List AWARE.HistoryEntry), prev.length = 30 →
        ∃ e : AWARE.HistoryEntry,
          (AWARE.handleReportSubmit isOnline store r prev).1 = e :: prev.dropLast) := by
  refine ⟨AWARE.submitSession_length_le, ?_, AWARE.handleReportSubmit_cons, ?_⟩
  · intro s submissions init
    simp only [List.foldl_cons]
    exact AWARE.submitSession_length_le _ _ (AWARE.handleReportSubmit_length_le _ _ _ _)
  intro isOnline store r prev hlen
  obtain ⟨e, he⟩ := AWARE.handleReportSubmit_cons isOnline store r prev
  refine ⟨e, he.trans ?_⟩
  rw [List.dropLast_eq_take, hlen]

/-- Closed instance of C3: one offline submission into an empty cache
stays within the bound, prepends, and a full 30-entry cache evicts its
tail entry. -/
theorem C3_history_cache_fifo30_witness :
    (([(false, AWARE.StoreResult.err, AWARE.sampleReport)].foldl AWARE.submitStep []).length ≤ 30) ∧
    (((false, AWARE.StoreResult.err, AWARE.sampleReport) ::
        ([] : List (Bool × AWARE.StoreResult × AWARE.NormalizedReport))).foldl
          AWARE.submitStep []).length ≤ 30 ∧
    (∃ e : AWARE.HistoryEntry,
      (AWARE.handleReportSubmit false AWARE.StoreResult.err AWARE.sampleReport []).1 =
        e :: ([] : List AWARE.HistoryEntry).take 29) ∧
    (∃ e : AWARE.HistoryEntry,
      (AWARE.handleReportSubmit true AWARE.StoreResult.err AWARE.sampleReport
          (List.replicate 30 ⟨AWARE.sampleReport, "Synced"⟩)).1 =
        e :: (List.replicate 30 (⟨AWARE.sampleReport, "Synced"⟩ : AWARE.HistoryEntry)).dropLast) :=
  ⟨C3_history_cache_fifo30.1 _ _ (by decide),
   C3_history_cache_fifo30.2.1 (false, AWARE.StoreResult.err, AWARE.sampleReport) [] [],
   C3_history_cache_fifo30.2.2.1 false AWARE.StoreResult.err AWARE.sampleReport [],
   C3_history_cache_fifo30.2.2.2 true AWARE.StoreResult.err AWARE.sampleReport _ (by decide)⟩

/-- C4: submitting offline never consults the store (the attempted flag is
false and the result does not depend on what the store would have
answered) and queues the report at the head of history with status
Pending sync; an attempted store write that fails records the report at
the head with status Failed; in both cases the submitted report is
retained, not discarded. -/
theorem C4_offline_and_failed_submission :
    ∀ (store store2 : AWARE.StoreResult) (r : AWARE.NormalizedReport)
      (prev : List AWARE.HistoryEntry),
      (AWARE.handleReportSubmit false store r prev).2 = false ∧
      AWARE.handleReportSubmit false store r prev =
        AWARE.handleReportSubmit false store2 r prev ∧
      (AWARE.handleReportSubmit false store r prev).1.head? = some ⟨r, "Pending sync"⟩ ∧
      (AWARE.handleReportSubmit true AWARE.StoreResult.err r prev).2 = true ∧
      (AWARE.handleReportSubmit true AWARE.StoreResult.err r prev).1.head? =
        some ⟨r, "Failed"⟩ := by
  intro store store2 r prev
  cases store <;> cases store2 <;>
    refine ⟨rfl, rfl, ?_, rfl, ?_⟩ <;>
    simp [AWARE.handleReportSubmit, AWARE.pushHistory]

/-- C5: when the store delete fails, the in-memory report list and the
summary are left untouched (no optimistic removal); when it succeeds,
exactly the reports with the deleted id are removed (a report stays in the
list iff it was there and has a different id, in unchanged order) and the
summary is recomputed from the updated list. -/
theorem C5_delete_report :
    ∀ (off now : Nat) (rid : String) (st : AWARE.DashState),
      (AWARE.handleDeleteReport off now false rid st).reports = st.reports ∧
      (AWARE.handleDeleteReport off now false rid st).summary = st.summary ∧
      (AWARE.handleDeleteReport off now true rid st).reports =
        st.reports.filter (fun item => item.id != rid) ∧
      (∀ r : AWARE.AReport,
          r ∈ (AWARE.handleDeleteReport off now true rid st).reports ↔
            r ∈ st.reports ∧ r.id ≠ rid) ∧
      (AWARE.handleDeleteReport off now true rid st).summary =
        AWARE.computeSummary off now
          (AWARE.handleDeleteReport off now true rid st).reports
          st.emergencyReports := by
  intro off now rid st
  refine ⟨rfl, rfl, rfl, fun r => ?_, rfl⟩
  simp [AWARE.handleDeleteReport, List.mem_filter]

/-- C6: the archive index invariant (0 on an empty report list, inside
the interval from 0 to count minus 1 otherwise) is preserved by every
delete and every prev/next navigation, hence by any sequence of them;
prev and next wrap circularly modulo the current count (prev at 0 lands on
count minus 1, next at count minus 1 lands on 0) and stay 0 on an empty
list; a successful delete clamps the index to the new count rather than
letting it go out of bounds; and the index is reset to 0 whenever a step
changes the report count. -/
theorem C6_archive_index :
    (∀ (off now : Nat) (st : AWARE.DashState) (ev : AWARE.DashEvent),
        AWARE.indexInv st → AWARE.indexInv (AWARE.dashStep off now st ev)) ∧
    (∀ (off now : Nat) (evs : List AWARE.DashEvent) (st : AWARE.DashState),
        AWARE.indexInv st →
        AWARE.indexInv (evs.foldl (AWARE.dashStep off now) st)) ∧
    (∀ st : AWARE.DashState, st.reports.length ≠ 0 →
        (AWARE.handlePrevReport st).reportIndex =
          (st.reportIndex + st.reports.length - 1) % st.reports.length ∧
        (AWARE.handleNextReport st).reportIndex =
          (st.reportIndex + 1) % st.reports.length) ∧
    (∀ st : AWARE.DashState, st.reports.length = 0 →
        (AWARE.handlePrevReport st).reportIndex = 0 ∧
        (AWARE.handleNextReport st).reportIndex = 0) ∧
    (∀ st : AWARE.DashState, st.reports.length ≠ 0 → st.reportIndex = 0 →
        (AWARE.handlePrevReport st).reportIndex = st.reports.length - 1) ∧
    (∀ st : AWARE.DashState, st.reports.length ≠ 0 →
        st.reportIndex = st.reports.length - 1 →
        (AWARE.handleNextReport st).reportIndex = 0) ∧
    (∀ (off now : Nat) (rid : String) (st : AWARE.DashState),
        (AWARE.handleDeleteReport off now true rid st).reports.length ≠ 0 →
        (AWARE.handleDeleteReport off now true rid st).reportIndex =
          min st.reportIndex
            ((AWARE.handleDeleteReport off now true rid st).reports.length - 1)) ∧
    (∀ (off now : Nat) (rid : String) (st : AWARE.DashState),
        (AWARE.handleDeleteReport off now true rid st).reports.length = 0 →
        (AWARE.handleDeleteReport off now true rid st).reportIndex = 0) ∧
    (∀ (off now : Nat) (ok : Bool) (rid : String) (st : AWARE.DashState),
        (AWARE.dashStep off now st (.deleteReport ok rid)).reports.length ≠
          st.reports.length →
        (AWARE.dashStep off now st (.deleteReport ok rid)).reportIndex = 0) := by
  refine ⟨AWARE.indexInv_dashStep, AWARE.indexInv_dashRun, ?_, ?_, ?_, ?_, ?_, ?_, ?_⟩
  · intro st hl
    constructor <;> simp only [AWARE.handlePrevReport, AWARE.handleNextReport] <;>
      rw [if_neg hl]
  · intro st hl
    constructor <;> simp only [AWARE.handlePrevReport, AWARE.handleNextReport] <;>
      rw [if_pos hl]
  · intro st hl hz
    simp only [AWARE.handlePrevReport]
    rw [if_neg hl, hz, Nat.zero_add]
    exact Nat.mod_eq_of_lt (Nat.sub_lt (Nat.pos_of_ne_zero hl) Nat.one_pos)
  · intro st hl hz
    simp only [AWARE.handleNextReport]
    rw [if_neg hl, hz, Nat.sub_add_cancel (Nat.pos_of_ne_zero hl), Nat.mod_self]
  · intro off now rid st hl
    simp only [AWARE.handleDeleteReport, if_true, ite_true] at hl ⊢
    rw [if_neg hl]
  · intro off now rid st hl
    simp only [AWARE.handleDeleteReport, if_true, ite_true] at hl ⊢
    rw [if_pos hl]
  · intro off now ok rid st hch
    simp only [AWARE.dashStep] at hch ⊢
    unfold AWARE.resetIndexOnCountChange at hch ⊢
    split at hch
    · next h => rw [if_pos h]
    · next h => exact absurd hch h

/-- Closed instance of C6 on a concrete one-report dashboard state:
navigation preserves the index invariant, a short event sequence
preserves it, prev/next wrap on the single report, a successful delete of
a missing id clamps, deleting the only report zeroes the index, and the
count change after that delete resets the index to 0. -/
theorem C6_archive_index_witness :
    AWARE.indexInv (AWARE.dashStep 330 144270 AWARE.sampleDashState .prevReport) ∧
    AWARE.indexInv
      (([AWARE.DashEvent.prevReport, AWARE.DashEvent.nextReport,
         AWARE.DashEvent.deleteReport true "a1"].foldl
        (AWARE.dashStep 330 144270) AWARE.sampleDashState)) ∧
    ((AWARE.handlePrevReport AWARE.sampleDashState).reportIndex =
        (AWARE.sampleDashState.reportIndex + AWARE.sampleDashState.reports.length - 1) %
          AWARE.sampleDashState.reports.length ∧
      (AWARE.handleNextReport AWARE.sampleDashState).reportIndex =
        (AWARE.sampleDashState.reportIndex + 1) % AWARE.sampleDashState.reports.length) ∧
    ((AWARE.handlePrevReport AWARE.sampleDashState).reportIndex =
        AWARE.sampleDashState.reports.length - 1) ∧
    ((AWARE.handleNextReport AWARE.sampleDashState).reportIndex = 0) ∧
    ((AWARE.handleDeleteReport 330 144270 true "zzz" AWARE.sampleDashState).reportIndex =
        min AWARE.sampleDashState.reportIndex
          ((AWARE.handleDeleteReport 330 144270 true "zzz" AWARE.sampleDashState).reports.length - 1)) ∧
    ((AWARE.handleDeleteReport 330 144270 true "a1" AWARE.sampleDashState).reportIndex = 0) ∧
    ((AWARE.dashStep 330 144270 AWARE.sampleDashState (.deleteReport true "a1")).reportIndex = 0) :=
  ⟨C6_archive_index.1 330 144270 AWARE.sampleDashState .prevReport
     (by unfold AWARE.indexInv; decide),
   C6_archive_index.2.1 330 144270 _ AWARE.sampleDashState
     (by unfold AWARE.indexInv; decide),
   C6_archive_index.2.2.1 AWARE.sampleDashState (by decide),
   C6_archive_index.2.2.2.2.1 AWARE.sampleDashState (by decide) (by decide),
   C6_archive_index.2.2.2.2.2.1 AWARE.sampleDashState (by decide) (by decide),
   C6_archive_index.2.2.2.2.2.2.1 330 144270 "zzz" AWARE.sampleDashState (by decide),
   C6_archive_index.2.2.2.2.2.2.2.1 330 144270 "a1" AWARE.sampleDashState (by decide),
   C6_archive_index.2.2.2.2.2.2.2.2 330 144270 true "a1" AWARE.sampleDashState (by decide)⟩

/-- C7: the summary's new-reports-today count equals the number of
reports whose creation instant lies on the caller's current local
calendar day or later (on-or-after local midnight), for every timezone
offset and evaluation instant; a report with no timestamp is excluded; a
report stamped yesterday 23:59 local time is excluded while one stamped
today 00:00 local time is included (shown in the UTC+5:30 zone); and the
cut is local midnight, not UTC midnight: the included 00:00 instant still
belongs to the previous UTC day. -/
theorem C7_new_reports_today :
    (∀ (off now : Nat) (reportsData : List AWARE.AReport),
        AWARE.newReportsToday off now reportsData =
          (reportsData.filter
            (fun r => AWARE.specCountsAsToday off now r.submittedAt)).length) ∧
    (∀ (off now : Nat) (rd : List AWARE.AReport) (ed : List AWARE.EReport),
        (AWARE.computeSummary off now rd ed).newReports =
          AWARE.newReportsToday off now rd) ∧
    (∀ off now : Nat, AWARE.countsAsToday off now none = false) ∧
    AWARE.countsAsToday 330 144270 (some 143669) = false ∧
    AWARE.countsAsToday 330 144270 (some 143670) = true ∧
    AWARE.localDay 0 143670 < AWARE.localDay 0 144270 ∧
    AWARE.specCountsAsToday 0 144270 (some 143670) = false :=
  ⟨AWARE.newReportsToday_eq_spec, fun _ _ _ _ => rfl, fun _ _ => rfl,
   by decide, by decide, by decide, by decide⟩

/-- C8: every narrative-generation result carries at most 3 diseases and
at most 4 recommendations; and when both model calls fail (API rejection
or unparseable reply alike) no error escapes: the call returns the fixed
fallback of an empty disease list plus the fixed safe-default
recommendation set, which is the same for every risk level. -/
theorem C8_narrative_limits_and_fallback :
    (∀ (riskLevel : String) (primary fallback : AWARE.ApiOutcome),
        (AWARE.generateDiseaseAnalysis riskLevel primary fallback).diseases.length ≤ 3 ∧
        (AWARE.generateDiseaseAnalysis riskLevel primary fallback).recommendations.length ≤ 4) ∧
    (∀ riskLevel e1 e2 : String,
        (AWARE.generateDiseaseAnalysis riskLevel (.apiError e1) (.apiError e2)).diseases = [] ∧
        (AWARE.generateDiseaseAnalysis riskLevel (.apiError e1) (.apiError e2)).recommendations =
          AWARE.getFallbackRecommendations riskLevel) ∧
    (∀ riskLevel : String,
        (AWARE.generateDiseaseAnalysis riskLevel (.ok none) (.ok none)).diseases = [] ∧
        (AWARE.generateDiseaseAnalysis riskLevel (.ok none) (.ok none)).recommendations =
          AWARE.getFallbackRecommendations riskLevel) ∧
    (∀ riskLevel : String,
        AWARE.getFallbackRecommendations riskLevel =
          ["Boil water before drinking",
           "Monitor and report water quality regularly",
           "Use water filters or purification systems when available",
           "Contact local health authorities if water quality concerns persist"]) :=
  ⟨AWARE.generateDiseaseAnalysis_limits,
   fun _ _ _ => ⟨rfl, rfl⟩,
   fun _ => ⟨rfl, rfl⟩,
   fun _ => rfl⟩

/-- C9: the sensor-status, graph-status and sensor-data getters are total
and swallow every failure: a non-2xx response or a rejected fetch makes
`getSensorStatus` and `getGraphStatus` return `{running: false}` and
`getSensorData` return `{data: [], count: 0}`, while a 2xx response is
passed through; no failure propagates to a polling tick. -/
theorem C9_sensor_getters_never_throw :
    (∀ b, AWARE.getSensorStatus (.ok b) = b) ∧
    AWARE.getSensorStatus .httpError = { running := false } ∧
    AWARE.getSensorStatus .networkError = { running := false } ∧
    (∀ b, AWARE.getGraphStatus (.ok b) = b) ∧
    AWARE.getGraphStatus .httpError = { running := false } ∧
    AWARE.getGraphStatus .networkError = { running := false } ∧
    (∀ b, AWARE.getSensorData (.ok b) = b) ∧
    AWARE.getSensorData .httpError = { data := [], count := 0 } ∧
    AWARE.getSensorData .networkError = { data := [], count := 0 } :=
  ⟨fun _ => rfl, rfl, rfl, fun _ => rfl, rfl, rfl, fun _ => rfl, rfl, rfl⟩

/-- C10: both login handlers authenticate exactly when the username,
stripped of surrounding whitespace, is the fixed username and the
password, compared untrimmed, is the fixed password; every rejected
attempt produces that handler's one fixed error message; whitespace
around the username is ignored while whitespace around the password is
rejected. -/
theorem C10_login :
    (∀ u p : String,
        (AWARE.handleLogin u p).1 = true ↔
          (AWARE.jsTrim u = "user" ∧ p = "12345")) ∧
    (∀ u p : String, (AWARE.handleLogin u p).1 = false →
        (AWARE.handleLogin u p).2 = "Invalid credentials for officials.") ∧
    (∀ u p : String,
        (AWARE.handleLoginSubmit u p).1 = true ↔
          (AWARE.jsTrim u = "user" ∧ p = "12345")) ∧
    (∀ u p : String, (AWARE.handleLoginSubmit u p).1 = false →
        (AWARE.handleLoginSubmit u p).2 = "Invalid credentials. Please try again.") ∧
    (AWARE.handleLogin "  user  " "12345").1 = true ∧
    (AWARE.handleLogin "user" " 12345").1 = false ∧
    (AWARE.handleLogin "user" "12345 ").1 = false ∧
    (AWARE.handleLoginSubmit " user" "12345").1 = true :=
  ⟨AWARE.handleLogin_iff, AWARE.handleLogin_fail_msg,
   AWARE.handleLoginSubmit_iff, AWARE.handleLoginSubmit_fail_msg,
   by decide, by decide, by decide, by decide⟩

/-- Closed instance of C10's hypothesised parts: a wrong password yields
the officials' fixed error message, and a wrong username yields the ASHA
form's fixed error message. -/
theorem C10_login_witness :
    (AWARE.handleLogin "user" "wrong").2 = "Invalid credentials for officials." ∧
    (AWARE.handleLoginSubmit "admin" "12345").2 =
      "Invalid credentials. Please try again." :=
  ⟨C10_login.2.1 "user" "wrong" (by decide),
   C10_login.2.2.2.1 "admin" "12345" (by decide)⟩
